import Mathlib

/-!
Shallow embedding of `src/scripts/create-tabs-pdf.py`: a script that renders
a list of browser-tab records into a PDF report. We model the tab records,
the classification of tabs (internal / empty-or-timeout), the summary counts,
the URL truncation for display, the font-selection loop, and the sequence of
document blocks (the `story` list) built by `create_tabs_pdf`.
-/

namespace TabsPdf

/-- One browser-tab record: `{index, title, url}` (the dicts in `tabs_data`). -/
structure TabRecord where
  index : Nat
  title : String
  url : String
  deriving DecidableEq

/-- Python `needle in haystack` on strings: substring containment. -/
def strContains (s pat : String) : Bool :=
  decide (pat.data <:+: s.data)

/-- Python `s.startswith(pat)`. -/
def strStartsWith (s pat : String) : Bool :=
  pat.data.isPrefixOf s.data

/-- Line 278: `'[internal]' in t['url'] or t['url'].startswith('chrome://')
or t['url'].startswith('devtools://')`. -/
def isInternal (t : TabRecord) : Bool :=
  strContains t.url "[internal]" || strStartsWith t.url "chrome://" ||
    strStartsWith t.url "devtools://"

/-- Line 280: `not t['url'] or t['title'] == '(timeout)'` (Python string
truthiness: `not s` holds exactly when `s` is empty). -/
def isEmptyOrTimeout (t : TabRecord) : Bool :=
  t.url.isEmpty || t.title == "(timeout)"

/-- The four summary statistics shown in the overview table. -/
structure SummaryCounts where
  total : Nat
  regular : Nat
  internal : Nat
  empty : Nat
  deriving DecidableEq

/-- Lines 277-280: `total_tabs = len(tabs_data)`, `internal_tabs = len([...])`,
`regular_tabs = total_tabs - internal_tabs`, `empty_tabs = len([...])`. -/
def summarize (tabs : List TabRecord) : SummaryCounts :=
  let totalTabs := tabs.length
  let internalTabs := (tabs.filter (fun t => isInternal t)).length
  let regularTabs := totalTabs - internalTabs
  let emptyTabs := (tabs.filter (fun t => isEmptyOrTimeout t)).length
  { total := totalTabs, regular := regularTabs, internal := internalTabs,
    empty := emptyTabs }

/-- Lines 318-320: `display_url = url; if len(display_url) > 100:
display_url = display_url[:97] + "..."`. Python slicing `[:97]` takes the
first 97 characters. -/
def displayUrl (url : String) : String :=
  if url.length > 100 then String.mk (url.data.take 97) ++ "..." else url

/-- Lines 161-168: the fixed, ordered list of candidate font paths. -/
def chineseFontPaths : List String :=
  ["/System/Library/Fonts/PingFang.ttc",
   "/System/Library/Fonts/STHeiti Light.ttc",
   "/System/Library/Fonts/Supplemental/Arial Unicode.ttf",
   "/usr/share/fonts/truetype/droid/DroidSansFallbackFull.ttf",
   "C:\\Windows\\Fonts\\simhei.ttf",
   "C:\\Windows\\Fonts\\msyh.ttc"]

/-- Lines 170-185: the font-search loop. `pathExists p` models
`os.path.exists(p)` and `registerOk p` models `pdfmetrics.registerFont`
succeeding (an exception there is caught and the loop continues with the
next candidate). Returns the first candidate that exists and registers,
or `none` when every candidate is absent or fails. -/
def findChineseFont (pathExists registerOk : String → Bool) :
    List String → Option String
  | [] => none
  | p :: rest =>
    if pathExists p then
      if registerOk p then some p
      else findChineseFont pathExists registerOk rest
    else findChineseFont pathExists registerOk rest

/-- Lines 187-193: the `(font_name, font_name_bold)` pair actually used:
`('ChineseFont', 'ChineseFont')` when some candidate registered, else the
default built-in `('Helvetica', 'Helvetica-Bold')` fallback. -/
def selectFontNames (pathExists registerOk : String → Bool)
    (paths : List String) : String × String :=
  match findChineseFont pathExists registerOk paths with
  | some _ => ("ChineseFont", "ChineseFont")
  | none => ("Helvetica", "Helvetica-Bold")

/-- One flowable appended to `story`: a styled paragraph (text, style name,
font name), the summary table (rows plus the two fonts of its style), or a
spacer (width in points, height in hundredths of an inch). -/
inductive Block where
  | para (text style font : String)
  | table (rows : List (List String)) (font fontBold : String)
  | spacer (width heightHundredthsInch : Nat)
  deriving DecidableEq

/-- Lines 282-287: the rows of the summary table, each count via `str(...)`. -/
def summaryRows (s : SummaryCounts) : List (List String) :=
  [["Total Tabs", toString s.total],
   ["Regular Tabs", toString s.regular],
   ["Internal/DevTools Tabs", toString s.internal],
   ["Empty/Timeout Tabs", toString s.empty]]

/-- Lines 310-325, loop body for one tab: the `"Tab {index}: {title}"` header
paragraph; then the URL paragraph (link markup around the possibly truncated
URL) when `tab['url']` is truthy, else the italic `(No URL)` placeholder;
then `Spacer(1, 0.1*inch)`. -/
def tabBlocks (fontName fontNameBold : String) (t : TabRecord) : List Block :=
  [Block.para ("Tab " ++ toString t.index ++ ": " ++ t.title) "TabTitle"
     fontNameBold,
   if t.url.isEmpty then Block.para "<i>(No URL)</i>" "TabURL" fontName
   else
     Block.para ("<font color=\x27#1a73e8\x27><u>" ++ displayUrl t.url ++
       "</u></font>") "TabURL" fontName,
   Block.spacer 1 10]

/-- The `for tab in tabs_data` loop (lines 310-325): per-tab blocks in input
order. -/
def detailBlocks (fontName fontNameBold : String) :
    List TabRecord → List Block
  | [] => []
  | t :: rest =>
    tabBlocks fontName fontNameBold t ++ detailBlocks fontName fontNameBold rest

/-- Lines 261-325: the full `story` list handed to `doc.build`: title,
timestamp subtitle, `Spacer(1, 0.3*inch)`, Overview heading, summary table,
`Spacer(1, 0.4*inch)`, Detailed Tab List heading, then the per-tab blocks. -/
def buildStory (fontName fontNameBold : String) (tabs : List TabRecord)
    (timestamp : String) : List Block :=
  let s := summarize tabs
  [Block.para "Chrome Browser Tabs Report" "CustomTitle" fontNameBold,
   Block.para ("Generated on " ++ timestamp) "CustomSubtitle" fontName,
   Block.spacer 1 30,
   Block.para "Overview" "SectionHeading" fontNameBold,
   Block.table (summaryRows s) fontName fontNameBold,
   Block.spacer 1 40,
   Block.para "Detailed Tab List" "SectionHeading" fontNameBold]
  ++ detailBlocks fontName fontNameBold tabs

/-! ## Theorems -/

/-- C1: `isInternal` holds exactly when the url starts with `chrome://` or
`devtools://` or contains the substring `[internal]`; the title (and the
index) play no role in this condition. -/
theorem internal_iff_url_pattern (t : TabRecord) :
    (isInternal t = true ↔
      ("chrome://".data <+: t.url.data ∨ "devtools://".data <+: t.url.data ∨
        "[internal]".data <:+: t.url.data)) ∧
    (∀ (i : Nat) (ti : String),
      isInternal { index := i, title := ti, url := t.url } = isInternal t) := by
  constructor
  · simp only [isInternal, strContains, strStartsWith, Bool.or_eq_true,
      decide_eq_true_eq, List.isPrefixOf_iff_prefix]
    tauto
  · intro i ti
    rfl

/-- C2: `isEmptyOrTimeout` holds exactly when the url is the empty string or
the title is the literal `(timeout)`. -/
theorem emptyOrTimeout_iff (t : TabRecord) :
    isEmptyOrTimeout t = true ↔ t.url = "" ∨ t.title = "(timeout)" := by
  simp only [isEmptyOrTimeout, Bool.or_eq_true, beq_iff_eq]
  rw [String.isEmpty_iff]

/-- C3: `regular` is the arithmetic complement of `internal`
(`regular = total - internal`, hence `regular + internal = total`), and it is
not in general the number of records that are neither internal nor
empty-or-timeout. -/
theorem regular_is_total_minus_internal :
    (∀ tabs : List TabRecord,
      (summarize tabs).regular =
        (summarize tabs).total - (summarize tabs).internal ∧
      (summarize tabs).regular + (summarize tabs).internal =
        (summarize tabs).total) ∧
    ∃ tabs : List TabRecord,
      (summarize tabs).regular ≠
        (tabs.filter (fun t => !isInternal t && !isEmptyOrTimeout t)).length := by
  constructor
  · intro tabs
    refine ⟨rfl, ?_⟩
    have h : (tabs.filter (fun t => isInternal t)).length ≤ tabs.length :=
      List.length_filter_le _ _
    simp only [summarize]
    omega
  · exact ⟨[⟨2, "(timeout)", ""⟩], by decide⟩

/-- C4: the `total` count is the length of the input sequence, and the empty
sequence yields all four counts zero. -/
theorem total_eq_length :
    (∀ tabs : List TabRecord, (summarize tabs).total = tabs.length) ∧
    summarize [] = ⟨0, 0, 0, 0⟩ :=
  ⟨fun _ => rfl, rfl⟩

/-- C5: a url longer than 100 characters is displayed as its first 97
characters followed by `...` (displayed length exactly 100); a url of length
at most 100 is displayed unmodified. -/
theorem url_truncation (url : String) :
    (url.length > 100 →
      displayUrl url = String.mk (url.data.take 97) ++ "..." ∧
      (displayUrl url).length = 100) ∧
    (url.length ≤ 100 → displayUrl url = url) := by
  constructor
  · intro h
    refine ⟨by simp [displayUrl, h], ?_⟩
    have hd : url.data.length > 100 := h
    simp only [displayUrl, if_pos h, String.length_append, String.length_mk,
      List.length_take]
    have h3 : ("..." : String).length = 3 := rfl
    omega
  · intro h
    simp [displayUrl]
    omega

/-- A 101-character url used to exercise the truncation branch. -/
def longUrl : String := String.mk (List.replicate 101 'a')

/-- Witness for C5: the truncation branch at a 101-character url and the
identity branch at a short url. -/
theorem url_truncation_witness :
    (displayUrl longUrl = String.mk (longUrl.data.take 97) ++ "..." ∧
      (displayUrl longUrl).length = 100) ∧
    displayUrl "http://a" = "http://a" :=
  ⟨(url_truncation longUrl).1 (by decide),
   (url_truncation "http://a").2 (by decide)⟩

/-- C6 counterexample: a record whose title contains `[internal]` but whose
url matches none of the url patterns is NOT classified internal — line 278
inspects only `t['url']`, never the title. -/
theorem title_marker_not_internal :
    strContains (TabRecord.mk 0 "[internal]" "https://example.com").title
      "[internal]" = true ∧
    isInternal (TabRecord.mk 0 "[internal]" "https://example.com") = false := by
  decide

/-- C6 amended: the `[internal]` marker triggers internal classification only
when it appears in the url; the title (and index) never affect the result. -/
theorem url_marker_internal :
    (∀ t : TabRecord, strContains t.url "[internal]" = true →
      isInternal t = true) ∧
    (∀ (i i' : Nat) (ti ti' u : String),
      isInternal ⟨i, ti, u⟩ = isInternal ⟨i', ti', u⟩) := by
  constructor
  · intro t h
    simp [isInternal, h]
  · intro _ _ _ _ _
    rfl

/-- Witness for the amended C6, on the record of index 13 from `tabs_data`. -/
theorem url_marker_internal_witness :
    isInternal ⟨13, "DevTools",
      "devtools://devtools/bundled/devtools_app.html [internal]"⟩ = true :=
  url_marker_internal.1 _ (by decide)

/-- Per-tab blocks at position `i` of the detail list: the header paragraph at
offset `3*i` and the url-or-placeholder paragraph at offset `3*i + 1`. -/
lemma detailBlocks_getElem (fn fb : String) :
    ∀ (tabs : List TabRecord) (i : Nat) (h : i < tabs.length),
    (detailBlocks fn fb tabs)[3 * i]? =
      some (Block.para ("Tab " ++ toString (tabs.get ⟨i, h⟩).index ++ ": " ++
        (tabs.get ⟨i, h⟩).title) "TabTitle" fb) ∧
    (detailBlocks fn fb tabs)[3 * i + 1]? =
      some (if (tabs.get ⟨i, h⟩).url.isEmpty then
        Block.para "<i>(No URL)</i>" "TabURL" fn
      else
        Block.para ("<font color=\x27#1a73e8\x27><u>" ++
          displayUrl (tabs.get ⟨i, h⟩).url ++ "</u></font>") "TabURL" fn) := by
  intro tabs
  induction tabs with
  | nil => intro i h; simp at h
  | cons t ts ih =>
    intro i h
    cases i with
    | zero =>
      simp [detailBlocks, tabBlocks]
    | succ i =>
      have hi : i < ts.length := by
        simpa using Nat.lt_of_succ_lt_succ h
      have e3 : 3 * (i + 1) = 3 * i + 1 + 1 + 1 := by ring
      rw [e3]
      simpa [detailBlocks, tabBlocks] using ih i hi

/-- Indexing past a seven-block preamble lands in the appended list. -/
lemma getElem_append_seven (b1 b2 b3 b4 b5 b6 b7 : Block) (l : List Block)
    (k : Nat) : ([b1, b2, b3, b4, b5, b6, b7] ++ l)[7 + k]? = l[k]? := by
  have h : List.length [b1, b2, b3, b4, b5, b6, b7] ≤ 7 + k := by
    simp only [List.length_cons, List.length_nil]
    omega
  rw [@List.getElem?_append_right Block [b1, b2, b3, b4, b5, b6, b7] l
    (7 + k) h]
  have e : 7 + k - List.length [b1, b2, b3, b4, b5, b6, b7] = k := by
    simp only [List.length_cons, List.length_nil]
    omega
  rw [e]

/-- C7: in the built story, position `7 + 3*i` holds the `"Tab {index}:
{title}"` header of the `i`-th record and position `7 + 3*i + 1` holds its
url line: the link-markup paragraph around the (possibly truncated) url when
the url is non-empty, else the italic `(No URL)` placeholder. -/
theorem detail_section_layout (fn fb ts : String) (tabs : List TabRecord)
    (i : Nat) (h : i < tabs.length) :
    (buildStory fn fb tabs ts)[7 + 3 * i]? =
      some (Block.para ("Tab " ++ toString (tabs.get ⟨i, h⟩).index ++ ": " ++
        (tabs.get ⟨i, h⟩).title) "TabTitle" fb) ∧
    (buildStory fn fb tabs ts)[7 + 3 * i + 1]? =
      some (if (tabs.get ⟨i, h⟩).url.isEmpty then
        Block.para "<i>(No URL)</i>" "TabURL" fn
      else
        Block.para ("<font color=\x27#1a73e8\x27><u>" ++
          displayUrl (tabs.get ⟨i, h⟩).url ++ "</u></font>") "TabURL" fn) := by
  have hpre := detailBlocks_getElem fn fb tabs i h
  constructor
  · rw [buildStory]
    rw [getElem_append_seven]
    exact hpre.1
  · rw [buildStory]
    have e2 : 7 + 3 * i + 1 = 7 + (3 * i + 1) := by omega
    rw [e2]
    rw [getElem_append_seven]
    exact hpre.2

/-- Witness for C7: the spec scenario record `{index:2, title:"(timeout)",
url:""}` renders a `Tab 2: (timeout)` header followed by the `(No URL)`
placeholder. -/
theorem detail_section_layout_witness :
    (buildStory "Helvetica" "Helvetica-Bold" [⟨2, "(timeout)", ""⟩]
      "2025-01-01 00:00:00")[7 + 3 * 0]? =
      some (Block.para "Tab 2: (timeout)" "TabTitle" "Helvetica-Bold") ∧
    (buildStory "Helvetica" "Helvetica-Bold" [⟨2, "(timeout)", ""⟩]
      "2025-01-01 00:00:00")[7 + 3 * 0 + 1]? =
      some (Block.para "<i>(No URL)</i>" "TabURL" "Helvetica") :=
  ⟨(detail_section_layout "Helvetica" "Helvetica-Bold" "2025-01-01 00:00:00"
      [⟨2, "(timeout)", ""⟩] 0 (by decide)).1.trans (by decide),
   (detail_section_layout "Helvetica" "Helvetica-Bold" "2025-01-01 00:00:00"
      [⟨2, "(timeout)", ""⟩] 0 (by decide)).2.trans (by decide)⟩

/-- C8: the font search equals a first-match scan of the candidate list (a
candidate that is absent or whose registration fails is skipped, the first
success stops the search), and the result is the Helvetica fallback exactly
when no candidate both exists and registers; in every case a font pair is
produced, never an error. -/
theorem font_selection (ex ok : String → Bool) (paths : List String) :
    findChineseFont ex ok paths = paths.find? (fun p => ex p && ok p) ∧
    (selectFontNames ex ok paths = ("Helvetica", "Helvetica-Bold") ↔
      ∀ p ∈ paths, (ex p && ok p) = false) := by
  have key : ∀ l : List String,
      findChineseFont ex ok l = l.find? (fun p => ex p && ok p) := by
    intro l
    induction l with
    | nil => rfl
    | cons p rest ih =>
      by_cases hx : ex p = true
      · by_cases ho : ok p = true
        · simp [findChineseFont, hx, ho, List.find?]
        · simp only [Bool.not_eq_true] at ho
          simp [findChineseFont, hx, ho, List.find?, ih]
      · simp only [Bool.not_eq_true] at hx
        simp [findChineseFont, hx, List.find?, ih]
  refine ⟨key paths, ?_⟩
  rw [selectFontNames, key paths]
  constructor
  · intro hsel p hp
    cases hf : paths.find? (fun p => ex p && ok p) with
    | none =>
      have := List.find?_eq_none.mp hf p hp
      simpa using this
    | some q =>
      rw [hf] at hsel
      simp at hsel
  · intro hall
    have hn : paths.find? (fun p => ex p && ok p) = none := by
      rw [List.find?_eq_none]
      intro x hx
      simp [hall x hx]
    rw [hn]

/-- C9: document building is deterministic: equal fonts, records and
timestamp yield the identical block sequence. -/
theorem build_deterministic (fn fb ts fn2 fb2 ts2 : String)
    (tabs tabs2 : List TabRecord) (h1 : fn = fn2) (h2 : fb = fb2)
    (h3 : tabs = tabs2) (h4 : ts = ts2) :
    buildStory fn fb tabs ts = buildStory fn2 fb2 tabs2 ts2 := by
  rw [h1, h2, h3, h4]

/-- Witness for C9 at a concrete record list. -/
theorem build_deterministic_witness :
    buildStory "Helvetica" "Helvetica-Bold" [⟨0, "t", "u"⟩] "2025-01-01" =
    buildStory "Helvetica" "Helvetica-Bold" [⟨0, "t", "u"⟩] "2025-01-01" :=
  build_deterministic "Helvetica" "Helvetica-Bold" "2025-01-01" "Helvetica"
    "Helvetica-Bold" "2025-01-01" [⟨0, "t", "u"⟩] [⟨0, "t", "u"⟩]
    rfl rfl rfl rfl

/-- The detail list contributes exactly three blocks per record. -/
lemma detailBlocks_length (fn fb : String) (tabs : List TabRecord) :
    (detailBlocks fn fb tabs).length = 3 * tabs.length := by
  induction tabs with
  | nil => rfl
  | cons t ts ih =>
    show (tabBlocks fn fb t ++ detailBlocks fn fb ts).length =
      3 * (ts.length + 1)
    rw [List.length_append, ih]
    have h3 : (tabBlocks fn fb t).length = 3 := rfl
    rw [h3]
    ring

/-- C10: the story always holds `7 + 3*N` blocks — a fixed 7-block preamble
and exactly three blocks per record, independent of whether the url is
empty. -/
theorem story_block_count (fn fb ts : String) (tabs : List TabRecord) :
    (buildStory fn fb tabs ts).length = 7 + 3 * tabs.length ∧
    ∀ t : TabRecord, (tabBlocks fn fb t).length = 3 := by
  refine ⟨?_, fun t => rfl⟩
  simp only [buildStory, List.length_append, List.length_cons, List.length_nil,
    detailBlocks_length]

end TabsPdf
